import Mathlib

/-!
Shallow embedding of the resilient execution core of the `insighthub`
repository (files `src/orchestrator/main.py`, `src/orchestrator/optimization.py`,
`src/orchestrator/ab_testing.py`, `src/orchestrator/monitoring/metrics.py`),
together with proofs settling the specification claims about it.

Conventions of the embedding:
* Python `float` values (durations, timestamps, delays, rates) are modelled
  as `Rat`; Python `int` counters as `Nat`.
* Wall-clock reads (`datetime.now()`, `time.time()`) are threaded through as
  explicit `now` parameters.
* Python `dict` objects are modelled as insertion-ordered association lists
  (`List (key × value)`); `dictGet`/`dictSet` mirror `d[k]` / `d[k] = v`.
* Fallible code returns `Except`/`Option`; a raised exception is `.error`.
-/

namespace InsightHub

/-- Python `d.get(k)` / `d[k]` on an insertion-ordered dict modelled as an
association list: the value of the first entry with the given key. -/
def dictGet {α β : Type} [DecidableEq α] (k : α) : List (α × β) → Option β
  | [] => none
  | (a, b) :: rest => if a = k then some b else dictGet k rest

/-- Python `d[k] = v`: replaces the value of an existing key in place
(keeping its position) or appends a fresh key at the end. -/
def dictSet {α β : Type} [DecidableEq α] (k : α) (v : β) : List (α × β) → List (α × β)
  | [] => [(k, v)]
  | (a, b) :: rest => if a = k then (k, v) :: rest else (a, b) :: dictSet k v rest

/-- Removal of a key (Python `del d[k]` / `Path.unlink`). -/
def dictRemove {α β : Type} [DecidableEq α] (k : α) (l : List (α × β)) : List (α × β) :=
  l.filter (fun kv => kv.1 ≠ k)

/-- One step of a stable insertion sort by a rational key: the new element is
placed after every element whose key is `≤` its own, as Python's stable
`sorted(..., key=...)` does for elements arriving later. -/
def insertByKey {α : Type} (key : α → Rat) (x : α) : List α → List α
  | [] => [x]
  | y :: ys => if key y ≤ key x then y :: insertByKey key x ys else x :: y :: ys

/-- Stable sort by a rational key, modelling Python `sorted(xs, key=...)`. -/
def sortByKey {α : Type} (key : α → Rat) (xs : List α) : List α :=
  xs.foldl (fun acc x => insertByKey key x acc) []

/-- Python `statistics.mean` (callers below only apply it to nonempty lists;
on `[]` Python raises, the `Rat` convention `0 / 0 = 0` is never exercised
under the guards reproduced from the source). -/
def pymean (xs : List Rat) : Rat := xs.sum / xs.length

/-- Python `statistics.median`: midpoint element of the sorted data, or the
average of the two midpoint elements for even-length data. -/
def pymedian (xs : List Rat) : Rat :=
  let data := sortByKey id xs
  let n := data.length
  if n % 2 = 1 then data.getD (n / 2) 0
  else (data.getD (n / 2 - 1) 0 + data.getD (n / 2) 0) / 2

/-- Python substring test `pat in s` (`True` when `pat` occurs contiguously
inside `s`). -/
def strContains (s pat : String) : Bool := decide (pat.data <:+: s.data)

/-! ## CircuitBreaker (`src/orchestrator/main.py`) -/

/-- `CircuitBreakerState` enum of `main.py`. -/
inductive CircuitBreakerState : Type
  | closed
  | open'
  | half_open
deriving DecidableEq, Repr

/-- `CircuitBreakerConfig` dataclass of `main.py` (defaults 5 / 60.0 / 3). -/
structure CircuitBreakerConfig : Type where
  failure_threshold : Nat := 5
  recovery_timeout : Rat := 60
  half_open_max_calls : Nat := 3
deriving DecidableEq, Repr

/-- `CircuitBreaker` dataclass of `main.py`. `last_failure_time` is a
timestamp in seconds (`Option` models the `None` initial value); the
per-instance `Lock` has no observable effect in this sequential model. -/
structure CircuitBreaker : Type where
  service_name : String
  config : CircuitBreakerConfig := {}
  state : CircuitBreakerState := .closed
  failure_count : Nat := 0
  last_failure_time : Option Rat := none
  half_open_calls : Nat := 0
deriving DecidableEq, Repr

/-- `CircuitBreaker.can_execute`, with `datetime.now()` passed in as `now`.
Returns the boolean result together with the possibly updated breaker
(OPEN flips to HALF_OPEN once `recovery_timeout` has elapsed since
`last_failure_time`). -/
def CircuitBreaker.can_execute (b : CircuitBreaker) (now : Rat) : Bool × CircuitBreaker :=
  match b.state with
  | .closed => (true, b)
  | .open' =>
    match b.last_failure_time with
    | some t =>
      if now - t ≥ b.config.recovery_timeout then
        (true, { b with state := .half_open, half_open_calls := 0 })
      else (false, b)
    | none => (false, b)
  | .half_open => (decide (b.half_open_calls < b.config.half_open_max_calls), b)

/-- `CircuitBreaker.record_success`. -/
def CircuitBreaker.record_success (b : CircuitBreaker) : CircuitBreaker :=
  match b.state with
  | .half_open =>
    let hoc := b.half_open_calls + 1
    if hoc ≥ b.config.half_open_max_calls then
      { b with state := .closed, failure_count := 0, half_open_calls := hoc }
    else { b with half_open_calls := hoc }
  | .closed => { b with failure_count := 0 }
  | .open' => b

/-- `CircuitBreaker.record_failure`, with `datetime.now()` passed in as
`now`. -/
def CircuitBreaker.record_failure (b : CircuitBreaker) (now : Rat) : CircuitBreaker :=
  let b' := { b with failure_count := b.failure_count + 1, last_failure_time := some now }
  if b.state = .closed ∨ b.state = .half_open then
    if b'.failure_count ≥ b.config.failure_threshold then { b' with state := .open' } else b'
  else b'

/-- A sequence of `record_failure` calls at the given timestamps. -/
def CircuitBreaker.record_failures (b : CircuitBreaker) (times : List Rat) : CircuitBreaker :=
  times.foldl CircuitBreaker.record_failure b

/-- While the cumulative failure count stays strictly below the threshold, a
CLOSED breaker remains CLOSED and just counts the failures. -/
theorem record_failures_stay_closed :
    ∀ (ts : List Rat) (b : CircuitBreaker),
      b.state = .closed →
      b.failure_count + ts.length < b.config.failure_threshold →
      (b.record_failures ts).state = .closed ∧
      (b.record_failures ts).failure_count = b.failure_count + ts.length ∧
      (b.record_failures ts).config = b.config := by
  intro ts
  induction ts with
  | nil =>
    intro b h1 _
    exact ⟨h1, by simp [CircuitBreaker.record_failures], rfl⟩
  | cons t ts ih =>
    intro b h1 h2
    have hthr : ¬ (b.failure_count + 1 ≥ b.config.failure_threshold) := by
      simp only [List.length_cons] at h2; omega
    have hstep : b.record_failure t =
        { b with failure_count := b.failure_count + 1, last_failure_time := some t } := by
      simp [CircuitBreaker.record_failure, h1, hthr]
    have hfold : b.record_failures (t :: ts) = (b.record_failure t).record_failures ts := by
      simp [CircuitBreaker.record_failures]
    rw [hfold, hstep]
    have := ih { b with failure_count := b.failure_count + 1, last_failure_time := some t }
      h1 (by show b.failure_count + 1 + ts.length < b.config.failure_threshold
             simp only [List.length_cons] at h2; omega)
    refine ⟨this.1, ?_, this.2.2⟩
    rw [this.2.1]
    show b.failure_count + 1 + ts.length = b.failure_count + (t :: ts).length
    simp only [List.length_cons]
    omega

/-- C3: for every circuit breaker configured with failure threshold N (N ≥ 1)
and positive recovery timeout, starting from the initial CLOSED state, after
exactly N consecutive `record_failure()` calls the breaker state is OPEN, and
a `can_execute()` call made before the recovery timeout has elapsed (in
particular immediately afterwards) returns false. -/
theorem circuitBreaker_opens_after_threshold_failures
    (name : String) (cfg : CircuitBreakerConfig) (ts : List Rat) (t : Rat)
    (hN : 1 ≤ cfg.failure_threshold) (hrt : 0 < cfg.recovery_timeout)
    (hlen : (ts ++ [t]).length = cfg.failure_threshold) :
    (({ service_name := name, config := cfg } : CircuitBreaker).record_failures
        (ts ++ [t])).state = .open' ∧
    ∀ u : Rat, u - t < cfg.recovery_timeout →
      ((({ service_name := name, config := cfg } : CircuitBreaker).record_failures
          (ts ++ [t])).can_execute u).1 = false := by
  set b0 : CircuitBreaker := { service_name := name, config := cfg } with hb0
  have hsplit : b0.record_failures (ts ++ [t]) = (b0.record_failures ts).record_failure t := by
    simp [CircuitBreaker.record_failures, List.foldl_append]
  have hlen' : ts.length + 1 = cfg.failure_threshold := by
    simpa using hlen
  have hcl := record_failures_stay_closed ts b0 rfl (by simp [hb0]; omega)
  obtain ⟨hs1, hc1, hcfg1⟩ := hcl
  have hc0 : b0.failure_count = 0 := rfl
  have hcfg0 : b0.config = cfg := rfl
  have hthr : (b0.record_failures ts).failure_count + 1 ≥
      (b0.record_failures ts).config.failure_threshold := by
    rw [hc1, hcfg1, hcfg0, hc0]; omega
  have hfinal : (b0.record_failures ts).record_failure t =
      { b0.record_failures ts with
        state := .open'
        failure_count := (b0.record_failures ts).failure_count + 1
        last_failure_time := some t } := by
    simp [CircuitBreaker.record_failure, hs1, hthr]
  constructor
  · rw [hsplit, hfinal]
  · intro u hu
    rw [hsplit, hfinal]
    have hne : ¬ (u - t ≥ cfg.recovery_timeout) := not_le.mpr hu
    simp [CircuitBreaker.can_execute, hcfg1, hcfg0, hne]

/-- Concrete input for the C3 witness: threshold 2, two failures at times 0
and 1, probe the breaker at time 1. -/
def cbC3w : CircuitBreaker :=
  { service_name := "svc"
    config := { failure_threshold := 2, recovery_timeout := 60, half_open_max_calls := 3 } }

/-- C3 witness: the hypotheses of
`circuitBreaker_opens_after_threshold_failures` hold at a concrete input and
so does its conclusion there. -/
theorem circuitBreaker_opens_after_threshold_failures_witness :
    (1 ≤ cbC3w.config.failure_threshold ∧ 0 < cbC3w.config.recovery_timeout ∧
      (([0] ++ [1] : List Rat)).length = cbC3w.config.failure_threshold ∧
      (1 : Rat) - 1 < cbC3w.config.recovery_timeout) ∧
    (cbC3w.record_failures ([0] ++ [1])).state = .open' ∧
    ((cbC3w.record_failures ([0] ++ [1])).can_execute 1).1 = false := by
  refine ⟨⟨by norm_num [cbC3w], by norm_num [cbC3w], by norm_num [cbC3w],
    by norm_num [cbC3w]⟩, ?_, ?_⟩
  · exact (circuitBreaker_opens_after_threshold_failures "svc" cbC3w.config [0] 1
      (by norm_num [cbC3w]) (by norm_num [cbC3w]) (by norm_num [cbC3w])).1
  · exact (circuitBreaker_opens_after_threshold_failures "svc" cbC3w.config [0] 1
      (by norm_num [cbC3w]) (by norm_num [cbC3w]) (by norm_num [cbC3w])).2 1
      (by norm_num [cbC3w])

/-- Concrete breaker refuting C4 as stated: it is OPEN, the recovery timeout
has fully elapsed, but `half_open_max_calls = 0`. -/
def cbC4 : CircuitBreaker :=
  { service_name := "svc"
    config := { failure_threshold := 1, recovery_timeout := 1, half_open_max_calls := 0 }
    state := .open'
    failure_count := 1
    last_failure_time := some 0
    half_open_calls := 0 }

/-- C4 counterexample: for the OPEN breaker `cbC4` (`half_open_max_calls = 0`,
recovery timeout elapsed: `1 - 0 ≥ 1`), `can_execute` does return true and
flip the state to HALF_OPEN with `half_open_calls = 0`, but
`half_open_max_calls` (that is, zero) consecutive `record_success()` calls do
not move the state to CLOSED and do not reset `failure_count` to 0, so the
claim as stated is false at this input. -/
theorem circuitBreaker_halfOpen_close_counterexample :
    (cbC4.can_execute 1).1 = true ∧
    (cbC4.can_execute 1).2.state = .half_open ∧
    (cbC4.can_execute 1).2.half_open_calls = 0 ∧
    (CircuitBreaker.record_success^[cbC4.config.half_open_max_calls]
        (cbC4.can_execute 1).2).state ≠ .closed ∧
    (CircuitBreaker.record_success^[cbC4.config.half_open_max_calls]
        (cbC4.can_execute 1).2).failure_count ≠ 0 := by
  have hce : cbC4.can_execute 1 =
      (true, { cbC4 with state := .half_open, half_open_calls := 0 }) := by
    norm_num [cbC4, CircuitBreaker.can_execute]
  rw [hce]
  refine ⟨rfl, rfl, rfl, ?_, ?_⟩ <;> simp [cbC4]

/-- From HALF_OPEN, `k ≥ 1` consecutive `record_success` calls that exactly
reach `half_open_max_calls` close the breaker and reset `failure_count`. -/
theorem record_success_iter_closes :
    ∀ (k : Nat) (b : CircuitBreaker),
      b.state = .half_open →
      1 ≤ k →
      b.half_open_calls + k = b.config.half_open_max_calls →
      (CircuitBreaker.record_success^[k] b).state = .closed ∧
      (CircuitBreaker.record_success^[k] b).failure_count = 0 := by
  intro k
  induction k with
  | zero => intro b _ hk _; omega
  | succ k ih =>
    intro b hs _ hsum
    rw [Function.iterate_succ_apply]
    by_cases hk : k = 0
    · subst hk
      have hge : b.half_open_calls + 1 ≥ b.config.half_open_max_calls := by omega
      have hstep : b.record_success =
          { b with
            state := .closed
            failure_count := 0
            half_open_calls := b.half_open_calls + 1 } := by
        simp [CircuitBreaker.record_success, hs, hge]
      rw [hstep]
      exact ⟨rfl, rfl⟩
    · have hlt : ¬ (b.half_open_calls + 1 ≥ b.config.half_open_max_calls) := by omega
      have hstep : b.record_success = { b with half_open_calls := b.half_open_calls + 1 } := by
        simp [CircuitBreaker.record_success, hs, hlt]
      rw [hstep]
      exact ih { b with half_open_calls := b.half_open_calls + 1 } hs (by omega)
        (by show b.half_open_calls + 1 + k = b.config.half_open_max_calls
            omega)

/-- C4 (amended): for every circuit breaker in the OPEN state with
`half_open_max_calls ≥ 1`, once at least `recovery_timeout` has elapsed since
`last_failure_time`, the next `can_execute()` call returns true and moves the
state to HALF_OPEN with `half_open_calls` reset to 0; from there,
`half_open_max_calls` consecutive `record_success()` calls move the state to
CLOSED and reset `failure_count` to 0. (The `half_open_max_calls ≥ 1`
hypothesis is forced by the counterexample with `half_open_max_calls = 0`.) -/
theorem circuitBreaker_recovery_halfOpen_close
    (b : CircuitBreaker) (t now : Rat)
    (hstate : b.state = .open')
    (hlast : b.last_failure_time = some t)
    (helapsed : now - t ≥ b.config.recovery_timeout)
    (hmax : 1 ≤ b.config.half_open_max_calls) :
    (b.can_execute now).1 = true ∧
    (b.can_execute now).2.state = .half_open ∧
    (b.can_execute now).2.half_open_calls = 0 ∧
    (CircuitBreaker.record_success^[b.config.half_open_max_calls]
        (b.can_execute now).2).state = .closed ∧
    (CircuitBreaker.record_success^[b.config.half_open_max_calls]
        (b.can_execute now).2).failure_count = 0 := by
  have hce : b.can_execute now = (true, { b with state := .half_open, half_open_calls := 0 }) := by
    simp [CircuitBreaker.can_execute, hstate, hlast, helapsed]
  rw [hce]
  have hclose := record_success_iter_closes b.config.half_open_max_calls
    { b with state := .half_open, half_open_calls := 0 } rfl hmax (by simp)
  exact ⟨rfl, rfl, rfl, hclose.1, hclose.2⟩

/-- Concrete OPEN breaker for the C4 witness. -/
def cbC4w : CircuitBreaker :=
  { service_name := "svc"
    config := { failure_threshold := 1, recovery_timeout := 1, half_open_max_calls := 2 }
    state := .open'
    failure_count := 1
    last_failure_time := some 0
    half_open_calls := 0 }

/-- C4 witness: the hypotheses of `circuitBreaker_recovery_halfOpen_close`
hold for the concrete breaker `cbC4w` probed at time 2, and so does its
conclusion there. -/
theorem circuitBreaker_recovery_halfOpen_close_witness :
    (cbC4w.state = .open' ∧ cbC4w.last_failure_time = some 0 ∧
      (2 : Rat) - 0 ≥ cbC4w.config.recovery_timeout ∧
      1 ≤ cbC4w.config.half_open_max_calls) ∧
    ((cbC4w.can_execute 2).1 = true ∧
      (cbC4w.can_execute 2).2.state = .half_open ∧
      (cbC4w.can_execute 2).2.half_open_calls = 0 ∧
      (CircuitBreaker.record_success^[cbC4w.config.half_open_max_calls]
          (cbC4w.can_execute 2).2).state = .closed ∧
      (CircuitBreaker.record_success^[cbC4w.config.half_open_max_calls]
          (cbC4w.can_execute 2).2).failure_count = 0) :=
  ⟨⟨rfl, rfl, by norm_num [cbC4w], by norm_num [cbC4w]⟩,
    circuitBreaker_recovery_halfOpen_close cbC4w 0 2 rfl rfl (by norm_num [cbC4w])
      (by norm_num [cbC4w])⟩

/-! ## ContentCache (`src/orchestrator/optimization.py`) -/

/-- Configuration default `IH_CACHE_MAX_AGE_HOURS` (`src/config.py`). -/
def IH_CACHE_MAX_AGE_HOURS : Nat := 24

/-- Configuration default `IH_CACHE_MAX_ITEMS` (`src/config.py`). -/
def IH_CACHE_MAX_ITEMS : Nat := 1000

/-- One on-disk cache record as written by `ContentCache.set`
(`{timestamp, content, type, url, params}`). -/
structure CacheEntry (α : Type) : Type where
  timestamp : Rat
  content : α
  type : String
  url : String
  params : List (String × String)
deriving DecidableEq

/-- The `ContentCache` instance state: the contents of `cache_dir` (one JSON
file per key), the resolved TTL (seconds) and item limit, and the hit/miss
counters. `α` is the payload type (`content` is `Any` in the source). -/
structure ContentCache (α : Type) : Type where
  files : List (String × CacheEntry α)
  max_age : Rat
  max_items : Nat
  hits : Nat
  misses : Nat
deriving DecidableEq

/-- `ContentCache.__init__` on an empty `cache_dir`: falsy (zero) arguments
fall back to the configuration defaults (`max_age_hours or
app_config.IH_CACHE_MAX_AGE_HOURS`, and likewise for `max_items`), the TTL
becomes `timedelta(hours=max_age_hours)` (seconds here). -/
def mkContentCache (α : Type) (max_age_hours max_items : Nat) : ContentCache α :=
  let hours := if max_age_hours = 0 then IH_CACHE_MAX_AGE_HOURS else max_age_hours
  let items := if max_items = 0 then IH_CACHE_MAX_ITEMS else max_items
  { files := [], max_age := hours * 3600, max_items := items, hits := 0, misses := 0 }

/-- Serialization of the `params` mapping used inside `_get_cache_key`
(comma-separated `key:value` pairs, as in the JSON text). -/
def serializeParams : List (String × String) → String
  | [] => ""
  | kv :: rest => kv.1 ++ ":" ++ kv.2 ++ "," ++ serializeParams rest

/-- `ContentCache._get_cache_key`: the source computes the MD5 hex digest of
the canonical (`sort_keys=True`) JSON text of `{type, url, params}`. The
digest is modelled as the serialized text itself, a stable injective stand-in
for a collision-free hash; `params` is already held in canonical order. -/
def cache_key (content_type url : String) (params : List (String × String)) : String :=
  "type=" ++ content_type ++ "&url=" ++ url ++ "&params=" ++ serializeParams params

/-- `ContentCache.get`, with `datetime.now()` passed as `now`. Returns the
payload (or `none` on miss) and the updated cache. On an expired entry the
file is unlinked and — as in the source, where `cached_data` is already bound
when the `finally` block runs — neither counter moves. -/
def ContentCache.get {α : Type} (c : ContentCache α) (now : Rat)
    (content_type url : String) (params : List (String × String)) :
    Option α × ContentCache α :=
  let key := cache_key content_type url params
  match dictGet key c.files with
  | none => (none, { c with misses := c.misses + 1 })
  | some entry =>
    if now - entry.timestamp > c.max_age then
      (none, { c with files := dictRemove key c.files })
    else
      (some entry.content, { c with hits := c.hits + 1 })

/-- `ContentCache.set`, with `datetime.now()` passed as `now`: write (or
overwrite) the entry, then run the eviction sweep, which lists every cache
file sorted by its stored `timestamp` field and unlinks the oldest
`count − max_items` files when `max_items` is truthy and exceeded. The
surviving files are kept in sorted order here; directory order is
unobservable (reads are key-based and the next sweep re-sorts). -/
def ContentCache.set {α : Type} (c : ContentCache α) (now : Rat)
    (content_type url : String) (content : α) (params : List (String × String)) :
    ContentCache α :=
  let key := cache_key content_type url params
  let entry : CacheEntry α :=
    { timestamp := now, content := content, type := content_type, url := url, params := params }
  let files1 := dictSet key entry c.files
  let sortedFiles := sortByKey (fun kv => kv.2.timestamp) files1
  if c.max_items ≠ 0 ∧ sortedFiles.length > c.max_items then
    { c with files := sortedFiles.drop (sortedFiles.length - c.max_items) }
  else
    { c with files := files1 }

theorem length_insertByKey {α : Type} (key : α → Rat) (x : α) :
    ∀ l : List α, (insertByKey key x l).length = l.length + 1 := by
  intro l
  induction l with
  | nil => rfl
  | cons y ys ih =>
    by_cases h : key y ≤ key x <;> simp [insertByKey, h, ih]

theorem length_sortByKey {α : Type} (key : α → Rat) (xs : List α) :
    (sortByKey key xs).length = xs.length := by
  suffices h : ∀ (xs : List α) (acc : List α),
      (xs.foldl (fun acc x => insertByKey key x acc) acc).length = acc.length + xs.length by
    simpa [sortByKey] using h xs []
  intro xs
  induction xs with
  | nil => intro acc; simp
  | cons x xs ih =>
    intro acc
    simp only [List.foldl_cons, List.length_cons]
    rw [ih, length_insertByKey]
    omega

theorem length_dictSet {α β : Type} [DecidableEq α] (k : α) (v : β) :
    ∀ l : List (α × β), (dictSet k v l).length ≤ l.length + 1 := by
  intro l
  induction l with
  | nil => simp [dictSet]
  | cons ab rest ih =>
    obtain ⟨a, b⟩ := ab
    by_cases h : a = k <;> simp [dictSet, h]
    omega

theorem dictGet_dictRemove_self {α β : Type} [DecidableEq α] (k : α) :
    ∀ l : List (α × β), dictGet k (dictRemove k l) = none := by
  intro l
  induction l with
  | nil => rfl
  | cons ab rest ih =>
    obtain ⟨a, b⟩ := ab
    by_cases h : a = k <;> simp [dictRemove, h, dictGet] at ih ⊢ <;> simpa [dictRemove] using ih

/-- Empty cache with `max_age_hours = 1` and `max_items = 2`, as in the
concrete C5 scenario. -/
def cacheC5_0 : ContentCache Nat := mkContentCache Nat 1 2

/-- The C5 scenario cache after inserting three distinct keys at increasing
timestamps (0, 1, 2 seconds). -/
def cacheC5_3 : ContentCache Nat :=
  ((cacheC5_0.set 0 "type1" "url1" 1 []).set 1 "type1" "url2" 2 []).set 2 "type1" "url3" 3 []

/-- C5: after every `ContentCache.set` the number of stored entries is at
most `max_items` whenever `max_items` is nonzero — and the constructor makes
`max_items` nonzero for every cache it builds, coercing a falsy argument to
the configured default. In the concrete `max_items = 2` scenario, inserting 3
distinct keys leaves exactly 2 entries, the entry with the oldest stored
`timestamp` field (key `url1`, stored at time 0) is the one evicted, and a
subsequent `get` on it is a miss while the two newer keys still hit. -/
theorem contentCache_set_bounded_and_evicts_oldest :
    (∀ (α : Type) (c : ContentCache α) (now : Rat) (content_type url : String)
      (content : α) (params : List (String × String)),
      c.max_items ≠ 0 →
      (c.set now content_type url content params).files.length ≤ c.max_items) ∧
    (∀ (α : Type) (h m : Nat), (mkContentCache α h m).max_items ≠ 0) ∧
    cacheC5_3.files.length = 2 ∧
    dictGet (cache_key "type1" "url1" []) cacheC5_3.files = none ∧
    (cacheC5_3.get 2 "type1" "url1" []).1 = none ∧
    (cacheC5_3.get 2 "type1" "url2" []).1 = some 2 ∧
    (cacheC5_3.get 2 "type1" "url3" []).1 = some 3 := by
  refine ⟨?_, ?_, ?_, ?_, ?_, ?_, ?_⟩
  · intro α c now content_type url content params hmi
    simp only [ContentCache.set]
    split
    · next hcond =>
      simp only [List.length_drop]
      omega
    · next hcond =>
      have hgt : ¬ (sortByKey (fun kv => kv.2.timestamp)
          (dictSet (cache_key content_type url params)
            { timestamp := now, content := content, type := content_type, url := url,
              params := params } c.files)).length > c.max_items :=
        fun h => hcond ⟨hmi, h⟩
      have hns := length_sortByKey (fun kv : String × CacheEntry α => kv.2.timestamp)
        (dictSet (cache_key content_type url params)
          { timestamp := now, content := content, type := content_type, url := url,
            params := params } c.files)
      simp only []
      omega
  · intro α h m
    unfold mkContentCache
    by_cases hm : m = 0 <;> simp [hm, IH_CACHE_MAX_ITEMS]
  · simp [cacheC5_3, cacheC5_0, mkContentCache, ContentCache.set, cache_key,
      serializeParams, IH_CACHE_MAX_AGE_HOURS, IH_CACHE_MAX_ITEMS, dictSet, sortByKey,
      insertByKey]
  · simp [cacheC5_3, cacheC5_0, mkContentCache, ContentCache.set, cache_key,
      serializeParams, IH_CACHE_MAX_AGE_HOURS, IH_CACHE_MAX_ITEMS, dictSet, sortByKey,
      insertByKey, dictGet]
  · simp [cacheC5_3, cacheC5_0, mkContentCache, ContentCache.set, ContentCache.get,
      cache_key, serializeParams, IH_CACHE_MAX_AGE_HOURS, IH_CACHE_MAX_ITEMS, dictSet,
      sortByKey, insertByKey, dictGet]
  · simp [cacheC5_3, cacheC5_0, mkContentCache, ContentCache.set, ContentCache.get,
      cache_key, serializeParams, IH_CACHE_MAX_AGE_HOURS, IH_CACHE_MAX_ITEMS, dictSet,
      sortByKey, insertByKey, dictGet]
    norm_num
  · simp [cacheC5_3, cacheC5_0, mkContentCache, ContentCache.set, ContentCache.get,
      cache_key, serializeParams, IH_CACHE_MAX_AGE_HOURS, IH_CACHE_MAX_ITEMS, dictSet,
      sortByKey, insertByKey, dictGet]
    norm_num

/-- C7: for every cache entry whose age exceeds the TTL, `ContentCache.get`
returns a miss (`none`) and deletes the underlying entry, so a repeated `get`
on the same key (at any later probe time) finds no entry. -/
theorem contentCache_get_expired_deletes
    {α : Type} (c : ContentCache α) (now : Rat) (content_type url : String)
    (params : List (String × String)) (entry : CacheEntry α)
    (hfound : dictGet (cache_key content_type url params) c.files = some entry)
    (hexp : now - entry.timestamp > c.max_age) :
    (c.get now content_type url params).1 = none ∧
    dictGet (cache_key content_type url params)
      (c.get now content_type url params).2.files = none ∧
    ∀ now2 : Rat,
      ((c.get now content_type url params).2.get now2 content_type url params).1 = none := by
  have hget : c.get now content_type url params =
      (none, { c with files := dictRemove (cache_key content_type url params) c.files }) := by
    simp only [ContentCache.get]
    rw [hfound]
    simp [hexp]
  refine ⟨by rw [hget], ?_, ?_⟩
  · rw [hget]
    exact dictGet_dictRemove_self _ _
  · intro now2
    rw [hget]
    simp only [ContentCache.get]
    rw [dictGet_dictRemove_self (cache_key content_type url params) c.files]

/-- Concrete one-entry cache for the C7 witness: entry stored at time 0,
TTL 10 seconds, probed at time 11. -/
def cacheC7 : ContentCache Nat :=
  { files := [(cache_key "video" "u1" [],
      { timestamp := 0, content := 42, type := "video", url := "u1", params := [] })]
    max_age := 10
    max_items := 5
    hits := 0
    misses := 0 }

/-- C7 witness: the hypotheses of `contentCache_get_expired_deletes` hold for
the concrete cache `cacheC7` probed at time 11, and so does its conclusion
there (the repeated `get` is probed at time 12). -/
theorem contentCache_get_expired_deletes_witness :
    (dictGet (cache_key "video" "u1" []) cacheC7.files =
        some { timestamp := 0, content := 42, type := "video", url := "u1", params := [] } ∧
      (11 : Rat) - 0 > cacheC7.max_age) ∧
    ((cacheC7.get 11 "video" "u1" []).1 = none ∧
      dictGet (cache_key "video" "u1" []) (cacheC7.get 11 "video" "u1" []).2.files = none ∧
      ((cacheC7.get 11 "video" "u1" []).2.get 12 "video" "u1" []).1 = none) := by
  have h1 : dictGet (cache_key "video" "u1" []) cacheC7.files =
      some { timestamp := 0, content := 42, type := "video", url := "u1", params := [] } := by
    simp [cacheC7, dictGet]
  have h2 : (11 : Rat) - 0 > cacheC7.max_age := by norm_num [cacheC7]
  have hmain := contentCache_get_expired_deletes cacheC7 11 "video" "u1" [] _ h1 h2
  exact ⟨⟨h1, h2⟩, hmain.1, hmain.2.1, hmain.2.2 12⟩

/-! ## MetricsAggregator (`src/orchestrator/monitoring/metrics.py`) -/

/-- The fields of `NodeMetrics` read by `aggregate_workflow_metrics`. -/
structure NodeMetrics : Type where
  node_name : String
  duration : Option Rat
  status : String
deriving DecidableEq

/-- The field of `WorkflowMetrics` read by `aggregate_workflow_metrics`. -/
structure WorkflowMetrics : Type where
  nodes : List NodeMetrics
deriving DecidableEq

/-- The per-node accumulator dict built in the collection loop of
`aggregate_workflow_metrics` (`{durations, error_count, count}`). -/
structure NodeStats : Type where
  durations : List Rat
  error_count : Nat
  count : Nat
deriving DecidableEq

/-- One iteration of the collection loop: `setdefault` the node's stats entry
(inserted at the end of the dict when fresh), append the duration when it is
not `None`, bump `error_count` when the status is not `"success"`, bump
`count`. -/
def addNode (acc : List (String × NodeStats)) (node : NodeMetrics) : List (String × NodeStats) :=
  let s := (dictGet node.node_name acc).getD { durations := [], error_count := 0, count := 0 }
  let s' : NodeStats :=
    { durations := s.durations ++ (match node.duration with | some d => [d] | none => [])
      error_count := s.error_count + (if node.status ≠ "success" then 1 else 0)
      count := s.count + 1 }
  dictSet node.node_name s' acc

/-- The nested collection loops of `aggregate_workflow_metrics`
(`for wf in workflows: for node in wf.nodes: ...`). -/
def collectNodeStats (workflows : List WorkflowMetrics) : List (String × NodeStats) :=
  workflows.foldl (fun acc wf => wf.nodes.foldl addNode acc) []

/-- Entry \[94\] (i = 95) of `statistics.quantiles(data, n=100)` with the
default `method="exclusive"` (CPython ≥ 3.11, the version the repository's
test suite requires): sort the data, rescale `i` to `m = len + 1`, clamp the
lower index `j` to `1 .. len − 1`, and linearly interpolate with
`delta = i*m − j*n` recomputed from the clamped `j` (so edge values are
linearly extrapolated from the two nearest data points). Only called on data
of length ≥ 2, where Python never raises. -/
def quantiles_p95 (durations : List Rat) : Rat :=
  let data := sortByKey id durations
  let ld := data.length
  let m := ld + 1
  let j0 := 95 * m / 100
  let j := if j0 < 1 then 1 else if j0 > ld - 1 then ld - 1 else j0
  let delta : Int := 95 * (m : Int) - (j : Int) * 100
  (data.getD (j - 1) 0 * (100 - (delta : Rat)) + data.getD j 0 * (delta : Rat)) / 100

/-- The post-processed per-node stats of `aggregate_workflow_metrics`
(the accumulator dict after `p95_duration`, `avg_duration` and `error_rate`
are added). -/
structure NodeStatsFinal : Type where
  durations : List Rat
  error_count : Nat
  count : Nat
  p95_duration : Rat
  avg_duration : Rat
  error_rate : Rat
deriving DecidableEq

/-- The post-processing step of `aggregate_workflow_metrics` for one node:
`durations = stats["durations"] or [0]`, p95 via `quantiles(..., n=100)[94]`
when more than one duration is present (else the single duration), mean, and
error rate guarded against a zero count. -/
def finalizeStats (s : NodeStats) : NodeStatsFinal :=
  let durations := if s.durations.isEmpty then [0] else s.durations
  { durations := s.durations
    error_count := s.error_count
    count := s.count
    p95_duration := if durations.length > 1 then quantiles_p95 durations else durations.headD 0
    avg_duration := pymean durations
    error_rate := if s.count ≠ 0 then (s.error_count : Rat) / s.count else 0 }

/-- `aggregate_workflow_metrics`: collect per-node windows, then post-process
each entry. -/
def aggregate_workflow_metrics (workflows : List WorkflowMetrics) :
    List (String × NodeStatsFinal) :=
  (collectNodeStats workflows).map (fun ns => (ns.1, finalizeStats ns.2))

/-- Modelled from the spec: the nearest-rank 95th percentile named by the
claim ("p95Duration (nearest-rank percentile over durations)") — the element
of the sorted data at rank `⌈0.95·n⌉` (the ceiling is computed as the natural
ceiling division `(95·n + 99) / 100`). Stated only for comparison with the
quantity the source actually computes. -/
def nearestRank95 (xs : List Rat) : Rat :=
  let data := sortByKey id xs
  data.getD ((95 * data.length + 99) / 100 - 1) 0

/-- Three workflows giving the "summarizer" step the duration window
[5, 7, 20]. -/
def wfsC1 : List WorkflowMetrics :=
  [⟨[{ node_name := "summarizer", duration := some 5, status := "success" }]⟩,
   ⟨[{ node_name := "summarizer", duration := some 7, status := "success" }]⟩,
   ⟨[{ node_name := "summarizer", duration := some 20, status := "success" }]⟩]

/-- C1 counterexample: aggregating workflows whose "summarizer" duration
window is [5, 7, 20] yields `p95_duration = 152/5 = 30.4` — the linearly
interpolated/extrapolated exclusive-method quantile computed by
`statistics.quantiles(durations, n=100)[94]` — while the nearest-rank 95th
percentile of [5, 7, 20] is 20. The claim's assertion that `p95_duration` is
the nearest-rank 95th percentile is therefore false at this input (the
inequalities `p95 ≥ 20` and `9 < avg < 12` do hold). -/
theorem metrics_p95_nearest_rank_counterexample :
    dictGet "summarizer" (aggregate_workflow_metrics wfsC1) =
      some (finalizeStats { durations := [5, 7, 20], error_count := 0, count := 3 }) ∧
    (finalizeStats { durations := [5, 7, 20], error_count := 0, count := 3 }).durations =
      [5, 7, 20] ∧
    (finalizeStats { durations := [5, 7, 20], error_count := 0, count := 3 }).p95_duration =
      152 / 5 ∧
    nearestRank95 [5, 7, 20] = 20 ∧
    (finalizeStats { durations := [5, 7, 20], error_count := 0, count := 3 }).p95_duration ≠
      nearestRank95 [5, 7, 20] := by
  refine ⟨?_, ?_, ?_, ?_, ?_⟩
  · simp [wfsC1, aggregate_workflow_metrics, collectNodeStats, addNode, dictGet, dictSet]
  · rfl
  · simp [finalizeStats, quantiles_p95, sortByKey, insertByKey]
    norm_num
  · norm_num [nearestRank95, sortByKey, insertByKey]
  · norm_num [finalizeStats, quantiles_p95, nearestRank95, sortByKey, insertByKey]

theorem dictGet_map_snd {α β γ : Type} [DecidableEq α] (f : β → γ) (k : α) :
    ∀ l : List (α × β),
      dictGet k (l.map (fun ab => (ab.1, f ab.2))) = (dictGet k l).map f := by
  intro l
  induction l with
  | nil => rfl
  | cons ab rest ih =>
    obtain ⟨a, b⟩ := ab
    by_cases h : a = k <;> simp [dictGet, h, ih]

/-- C1 (amended): for every step whose aggregated duration window is the list
[5, 7, 20], `aggregate_workflow_metrics` reports `p95_duration = 152/5`
(= 30.4, the interpolated exclusive-method 95th percentile of
`statistics.quantiles`, not the nearest-rank percentile, which would be 20),
so the p95 is at least 20, and `avg_duration = 32/3`, strictly between 9 and
12. -/
theorem metrics_aggregate_5_7_20
    (workflows : List WorkflowMetrics) (node_name : String) (stats : NodeStatsFinal)
    (hfound : dictGet node_name (aggregate_workflow_metrics workflows) = some stats)
    (hdur : stats.durations = [5, 7, 20]) :
    stats.p95_duration = 152 / 5 ∧ stats.p95_duration ≥ 20 ∧
    9 < stats.avg_duration ∧ stats.avg_duration < 12 := by
  unfold aggregate_workflow_metrics at hfound
  rw [dictGet_map_snd] at hfound
  cases hs : dictGet node_name (collectNodeStats workflows) with
  | none => rw [hs] at hfound; simp at hfound
  | some s =>
    rw [hs, Option.map_some'] at hfound
    have hstats : stats = finalizeStats s := (Option.some.inj hfound).symm
    subst hstats
    have hsd : s.durations = [5, 7, 20] := by
      simpa [finalizeStats] using hdur
    constructor
    · simp [finalizeStats, hsd, quantiles_p95, sortByKey, insertByKey]
      norm_num
    refine ⟨?_, ?_, ?_⟩
    · simp [finalizeStats, hsd, quantiles_p95, sortByKey, insertByKey]
      norm_num
    · simp [finalizeStats, hsd, pymean]
      norm_num
    · simp [finalizeStats, hsd, pymean]
      norm_num

/-- C1 witness: the hypotheses of `metrics_aggregate_5_7_20` hold at the
concrete workflow list `wfsC1`, and so does its conclusion there. -/
theorem metrics_aggregate_5_7_20_witness :
    (dictGet "summarizer" (aggregate_workflow_metrics wfsC1) =
        some (finalizeStats { durations := [5, 7, 20], error_count := 0, count := 3 }) ∧
      (finalizeStats { durations := [5, 7, 20], error_count := 0, count := 3 }).durations =
        [5, 7, 20]) ∧
    ((finalizeStats { durations := [5, 7, 20], error_count := 0, count := 3 }).p95_duration =
        152 / 5 ∧
      (finalizeStats { durations := [5, 7, 20], error_count := 0, count := 3 }).p95_duration ≥
        20 ∧
      9 < (finalizeStats { durations := [5, 7, 20], error_count := 0, count := 3 }).avg_duration ∧
      (finalizeStats { durations := [5, 7, 20], error_count := 0, count := 3 }).avg_duration <
        12) := by
  have h1 : dictGet "summarizer" (aggregate_workflow_metrics wfsC1) =
      some (finalizeStats { durations := [5, 7, 20], error_count := 0, count := 3 }) := by
    simp [wfsC1, aggregate_workflow_metrics, collectNodeStats, addNode, dictGet, dictSet]
  exact ⟨⟨h1, rfl⟩, metrics_aggregate_5_7_20 wfsC1 "summarizer" _ h1 rfl⟩

/-- C5 witness: the bound of `contentCache_set_bounded_and_evicts_oldest`
instantiated at the concrete cache `cacheC5_0` (whose `max_items = 2` is
nonzero). -/
theorem contentCache_set_bounded_and_evicts_oldest_witness :
    cacheC5_0.max_items ≠ 0 ∧
    (cacheC5_0.set 0 "type1" "url1" 1 []).files.length ≤ cacheC5_0.max_items :=
  ⟨by simp [cacheC5_0, mkContentCache, IH_CACHE_MAX_ITEMS],
    contentCache_set_bounded_and_evicts_oldest.1 Nat cacheC5_0 0 "type1" "url1" 1 []
      (by simp [cacheC5_0, mkContentCache, IH_CACHE_MAX_ITEMS])⟩

/-! ## ABTestManager (`src/orchestrator/ab_testing.py`) -/

/-- `ExperimentStatus` enum. -/
inductive ExperimentStatus : Type
  | draft
  | running
  | paused
  | completed
  | terminated
deriving DecidableEq, Repr

/-- `ExperimentConfig` dataclass. `traffic_allocation` is the
strategy → fraction dict in its insertion order. The `created_at` /
`updated_at` timestamps written by `__post_init__` are not read by any of the
modelled operations and are omitted. -/
structure ExperimentConfig : Type where
  experiment_id : String
  name : String
  description : String
  status : ExperimentStatus
  control_strategy : String
  treatment_strategies : List String
  traffic_allocation : List (String × Rat)
  primary_metric : String
  secondary_metrics : List String
  start_date : String
  end_date : Option String
  min_sample_size : Nat
  max_duration_days : Nat
  significance_level : Rat := 1 / 20
  power : Rat := 4 / 5
  minimum_effect_size : Rat := 1 / 10
deriving DecidableEq

/-- `ExperimentResult` dataclass (the `timestamp` and `metadata` fields
filled by `__post_init__` are not read by the modelled operations and are
omitted). -/
structure ExperimentResult : Type where
  experiment_id : String
  strategy : String
  execution_id : String
  duration : Rat
  success : Bool
  error_message : Option String
  content_type : String
  content_length : Option Nat
  tokens_used : Nat := 0
  api_cost : Rat := 0
deriving DecidableEq

/-- The in-memory state of `ABTestManager`: the `active_experiments` and
`experiment_results` dicts (the `.experiments` directory is write-through
persistence not read back within a session). -/
structure ABTestManager : Type where
  active_experiments : List (String × ExperimentConfig)
  experiment_results : List (String × List ExperimentResult)
deriving DecidableEq

/-- `ABTestManager.create_experiment`. The generated
`exp_{time}_{random}` identifier and `datetime.now()` start date are passed
in (`experiment_id`, `start_date`); validation failure raises `ValueError`
(`Except.error` here). -/
def ABTestManager.create_experiment (mgr : ABTestManager) (experiment_id : String)
    (name description control_strategy : String) (treatment_strategies : List String)
    (traffic_allocation : List (String × Rat)) (primary_metric : String)
    (secondary_metrics : List String) (min_sample_size max_duration_days : Nat)
    (start_date : String) : Except String (ABTestManager × String) :=
  let total_allocation := (traffic_allocation.map (fun kv => kv.2)).sum
  if |total_allocation - 1| > 1 / 100 then
    .error "Traffic allocation must sum to 1.0"
  else
    let experiment : ExperimentConfig :=
      { experiment_id := experiment_id
        name := name
        description := description
        status := .draft
        control_strategy := control_strategy
        treatment_strategies := treatment_strategies
        traffic_allocation := traffic_allocation
        primary_metric := primary_metric
        secondary_metrics := secondary_metrics
        start_date := start_date
        end_date := none
        min_sample_size := min_sample_size
        max_duration_days := max_duration_days }
    .ok ({ active_experiments := dictSet experiment_id experiment mgr.active_experiments
           experiment_results := dictSet experiment_id [] mgr.experiment_results },
      experiment_id)

/-- `ABTestManager.start_experiment` (`datetime.now()` passed as
`start_date`). -/
def ABTestManager.start_experiment (mgr : ABTestManager) (experiment_id : String)
    (start_date : String) : Except String ABTestManager :=
  match dictGet experiment_id mgr.active_experiments with
  | none => .error "Experiment not found"
  | some experiment =>
    .ok { mgr with
      active_experiments := dictSet experiment_id
        { experiment with status := .running, start_date := start_date }
        mgr.active_experiments }

/-- The weighted-selection loop of `select_strategy`: walk the allocation
items accumulating the cumulative weight and return the first strategy with
`rand_val ≤ cumulative`; `none` when the loop falls through. -/
def walkAllocation (rand_val : Rat) : Rat → List (String × Rat) → Option String
  | _, [] => none
  | cumulative, (strategy, allocation) :: rest =>
    let c := cumulative + allocation
    if rand_val ≤ c then some strategy else walkAllocation rand_val c rest

/-- `ABTestManager.select_strategy`, with the `random.random()` draw passed
in as `rand_val`. Note the source returns the string literal `"default"` —
not the experiment's `control_strategy` — when the experiment id is absent
from `active_experiments`. -/
def ABTestManager.select_strategy (mgr : ABTestManager) (experiment_id : String)
    (rand_val : Rat) : String :=
  match dictGet experiment_id mgr.active_experiments with
  | none => "default"
  | some experiment =>
    if experiment.status ≠ .running then experiment.control_strategy
    else (walkAllocation rand_val 0 experiment.traffic_allocation).getD
      experiment.control_strategy

theorem dictGet_dictSet_self {α β : Type} [DecidableEq α] (k : α) (v : β) :
    ∀ l : List (α × β), dictGet k (dictSet k v l) = some v := by
  intro l
  induction l with
  | nil => simp [dictGet, dictSet]
  | cons ab rest ih =>
    obtain ⟨a, b⟩ := ab
    by_cases h : a = k <;> simp [dictGet, dictSet, h, ih]

/-- A manager with no experiments at all. -/
def mgrEmpty : ABTestManager := { active_experiments := [], experiment_results := [] }

/-- A concrete draft experiment whose control strategy is `"parallel"`. -/
def expC2 : ExperimentConfig :=
  { experiment_id := "exp_1"
    name := "parallel-vs-sequential"
    description := "d"
    status := .draft
    control_strategy := "parallel"
    treatment_strategies := ["sequential"]
    traffic_allocation := [("parallel", 1 / 2), ("sequential", 1 / 2)]
    primary_metric := "duration"
    secondary_metrics := []
    start_date := "2025-01-01"
    end_date := none
    min_sample_size := 100
    max_duration_days := 30 }

/-- C2 counterexample: when the experiment is missing from the manager,
`select_strategy` returns the string literal `"default"`, not the
experiment's `control_strategy` — here the experiment `expC2` (control
strategy `"parallel"`) is absent from `mgrEmpty`, and the selection returns
`"default" ≠ "parallel"`. -/
theorem select_strategy_missing_counterexample :
    dictGet "exp_1" mgrEmpty.active_experiments = none ∧
    mgrEmpty.select_strategy "exp_1" 0 = "default" ∧
    expC2.control_strategy = "parallel" ∧
    mgrEmpty.select_strategy "exp_1" 0 ≠ expC2.control_strategy := by
  refine ⟨rfl, rfl, rfl, ?_⟩
  intro h
  simp [mgrEmpty, ABTestManager.select_strategy, dictGet, expC2] at h

/-- C2 (amended): `select_strategy` returns the literal `"default"` when the
experiment id is missing from the manager; it returns the experiment's
`control_strategy` whenever the experiment is present with a status other
than running — in particular, for every experiment that has just been created
by `create_experiment` (status draft) and not started, every random draw
selects the `control_strategy`. -/
theorem select_strategy_default_and_control :
    (∀ (mgr : ABTestManager) (experiment_id : String) (rand_val : Rat),
      dictGet experiment_id mgr.active_experiments = none →
      mgr.select_strategy experiment_id rand_val = "default") ∧
    (∀ (mgr : ABTestManager) (experiment_id : String) (e : ExperimentConfig) (rand_val : Rat),
      dictGet experiment_id mgr.active_experiments = some e →
      e.status ≠ .running →
      mgr.select_strategy experiment_id rand_val = e.control_strategy) ∧
    (∀ (mgr mgr' : ABTestManager) (experiment_id name description control_strategy : String)
      (treatment_strategies : List String) (traffic_allocation : List (String × Rat))
      (primary_metric : String) (secondary_metrics : List String)
      (min_sample_size max_duration_days : Nat) (start_date : String) (rand_val : Rat),
      mgr.create_experiment experiment_id name description control_strategy
        treatment_strategies traffic_allocation primary_metric secondary_metrics
        min_sample_size max_duration_days start_date = .ok (mgr', experiment_id) →
      mgr'.select_strategy experiment_id rand_val = control_strategy) := by
  refine ⟨?_, ?_, ?_⟩
  · intro mgr experiment_id rand_val hmiss
    simp [ABTestManager.select_strategy, hmiss]
  · intro mgr experiment_id e rand_val hfound hstatus
    simp [ABTestManager.select_strategy, hfound, hstatus]
  · intro mgr mgr' experiment_id name description control_strategy treatment_strategies
      traffic_allocation primary_metric secondary_metrics min_sample_size
      max_duration_days start_date rand_val hok
    simp only [ABTestManager.create_experiment] at hok
    split at hok
    · exact absurd hok (by simp)
    · simp only [Except.ok.injEq, Prod.mk.injEq] at hok
      obtain ⟨hmgr, -⟩ := hok
      subst hmgr
      simp [ABTestManager.select_strategy, dictGet_dictSet_self]

/-- A manager holding the draft experiment `expC2`. -/
def mgrC2 : ABTestManager :=
  { active_experiments := [("exp_1", expC2)], experiment_results := [("exp_1", [])] }

/-- C2 witness: the second component of
`select_strategy_default_and_control` instantiated at the concrete manager
`mgrC2` holding the draft experiment `expC2`, plus the missing-id component
at the empty manager. -/
theorem select_strategy_default_and_control_witness :
    (dictGet "exp_1" mgrC2.active_experiments = some expC2 ∧
      expC2.status ≠ ExperimentStatus.running ∧
      dictGet "exp_9" mgrEmpty.active_experiments = none) ∧
    (mgrC2.select_strategy "exp_1" (1 / 3) = expC2.control_strategy ∧
      mgrEmpty.select_strategy "exp_9" (1 / 3) = "default") :=
  ⟨⟨by simp [mgrC2, dictGet], by decide, rfl⟩,
    select_strategy_default_and_control.2.1 mgrC2 "exp_1" expC2 (1 / 3)
      (by simp [mgrC2, dictGet]) (by decide),
    select_strategy_default_and_control.1 mgrEmpty "exp_9" (1 / 3) rfl⟩

/-- Sample variance of the data, `Σ(x − mean)² / (n − 1)`. Python's
`statistics.stdev` is its (irrational) square root; `analyze_experiment`
below stores the variance, which carries exactly the same presence and
definedness information. Only called with `n ≥ 2` by the guarded caller. -/
def sampleVariance (xs : List Rat) : Rat :=
  let m := pymean xs
  ((xs.map (fun x => (x - m) ^ 2)).sum) / ((xs.length : Rat) - 1)

/-- One iteration of the grouping loop of `analyze_experiment`: append the
result to its strategy's list, creating the list when the strategy is new. -/
def appendResult (acc : List (String × List ExperimentResult)) (r : ExperimentResult) :
    List (String × List ExperimentResult) :=
  match dictGet r.strategy acc with
  | none => dictSet r.strategy [r] acc
  | some rs => dictSet r.strategy (rs ++ [r]) acc

/-- The `strategy_results` dict of `analyze_experiment` (results grouped by
strategy in first-appearance order). -/
def groupByStrategy (results : List ExperimentResult) :
    List (String × List ExperimentResult) :=
  results.foldl appendResult []

/-- The per-strategy metrics dict computed by `analyze_experiment`. The
optional `duration_std` is `some` exactly when the source adds the
`"duration_std"` key (more than one *successful* result); it holds the sample
variance, whose square root is the `statistics.stdev` value the source
stores. -/
structure StrategyMetrics : Type where
  sample_size : Nat
  success_count : Nat
  success_rate : Rat
  avg_duration : Rat
  median_duration : Rat
  total_tokens : Nat
  total_cost : Rat
  avg_cost_per_execution : Rat
  duration_std : Option Rat
deriving DecidableEq

/-- The per-strategy computation in the metrics loop of
`analyze_experiment` (Python's empty-list truthiness guards become
length checks). -/
def strategyMetricsOf (rs : List ExperimentResult) : StrategyMetrics :=
  let successful := rs.filter (fun r => r.success)
  { sample_size := rs.length
    success_count := successful.length
    success_rate := if rs.length ≠ 0 then (successful.length : Rat) / rs.length else 0
    avg_duration :=
      if successful.length ≠ 0 then pymean (successful.map (fun r => r.duration)) else 0
    median_duration :=
      if successful.length ≠ 0 then pymedian (successful.map (fun r => r.duration)) else 0
    total_tokens := (rs.map (fun r => r.tokens_used)).sum
    total_cost := (rs.map (fun r => r.api_cost)).sum
    avg_cost_per_execution :=
      if rs.length ≠ 0 then pymean (rs.map (fun r => r.api_cost)) else 0
    duration_std :=
      if successful.length > 1 then
        some (sampleVariance (successful.map (fun r => r.duration)))
      else none }

/-- `ABTestManager.analyze_experiment`, reduced to its `strategy_metrics`
component (the envelope fields `experiment_id`, `analysis_timestamp` and
`total_executions` carry no per-strategy information); the two `"error"`
returns of the source become `Except.error`. -/
def ABTestManager.analyze_experiment (mgr : ABTestManager) (experiment_id : String) :
    Except String (List (String × StrategyMetrics)) :=
  match dictGet experiment_id mgr.experiment_results with
  | none => .error "No results found for experiment"
  | some results =>
    if results.isEmpty then .error "No results to analyze"
    else .ok ((groupByStrategy results).map (fun g => (g.1, strategyMetricsOf g.2)))

/-- A failed experiment result for strategy `"A"`. -/
def rFail1 : ExperimentResult :=
  { experiment_id := "exp_1", strategy := "A", execution_id := "e1", duration := 1,
    success := false, error_message := some "boom", content_type := "video",
    content_length := none }

/-- A second failed experiment result for strategy `"A"`. -/
def rFail2 : ExperimentResult :=
  { experiment_id := "exp_1", strategy := "A", execution_id := "e2", duration := 2,
    success := false, error_message := some "boom2", content_type := "video",
    content_length := none }

/-- A manager holding two failed results for strategy `"A"` of
experiment `"exp_1"`. -/
def mgrC9 : ABTestManager :=
  { active_experiments := [], experiment_results := [("exp_1", [rFail1, rFail2])] }

/-- C9 counterexample: strategy `"A"` of `mgrC9` has `sample_size = 2 > 1`,
yet `analyze_experiment` includes no duration standard deviation for it —
the source gates the `"duration_std"` key on `len(successful_results) > 1`,
and both results failed. The claim as stated is false at this input. -/
theorem analyze_stdev_counterexample :
    mgrC9.analyze_experiment "exp_1" = .ok [("A", strategyMetricsOf [rFail1, rFail2])] ∧
    (strategyMetricsOf [rFail1, rFail2]).sample_size = 2 ∧
    (strategyMetricsOf [rFail1, rFail2]).duration_std = none := by
  refine ⟨?_, ?_, ?_⟩
  · simp [mgrC9, ABTestManager.analyze_experiment, dictGet, groupByStrategy, appendResult,
      dictSet, rFail1, rFail2]
  · simp [strategyMetricsOf, rFail1, rFail2]
  · simp [strategyMetricsOf, rFail1, rFail2]

theorem strategyMetricsOf_duration_std_iff (rs : List ExperimentResult) :
    (strategyMetricsOf rs).duration_std.isSome ↔ (strategyMetricsOf rs).success_count > 1 := by
  simp only [strategyMetricsOf]
  by_cases h : (rs.filter (fun r => r.success)).length > 1 <;> simp [h]

/-- C9 (amended): for every experiment and every strategy group,
`analyze_experiment`'s returned metrics for that strategy include the
duration standard deviation exactly when the number of *successful* results
in the group (`success_count`) is greater than 1 — not when `sample_size`
is; `sample_size`, `success_rate`, average and median duration, and total
cost and tokens are always present. -/
theorem analyze_stdev_iff_successes
    (mgr : ABTestManager) (experiment_id strategy : String)
    (ms : List (String × StrategyMetrics)) (m : StrategyMetrics)
    (hok : mgr.analyze_experiment experiment_id = .ok ms)
    (hm : dictGet strategy ms = some m) :
    m.duration_std.isSome ↔ m.success_count > 1 := by
  simp only [ABTestManager.analyze_experiment] at hok
  cases hres : dictGet experiment_id mgr.experiment_results with
  | none => simp [hres] at hok
  | some results =>
    simp only [hres] at hok
    by_cases hempty : results.isEmpty
    · rw [if_pos hempty] at hok
      exact absurd hok (by simp)
    · rw [if_neg hempty] at hok
      have hms := (Except.ok.inj hok).symm
      subst hms
      rw [dictGet_map_snd] at hm
      cases hg : dictGet strategy (groupByStrategy results) with
      | none => rw [hg] at hm; exact absurd hm (by simp)
      | some rs =>
        rw [hg, Option.map_some'] at hm
        have : m = strategyMetricsOf rs := (Option.some.inj hm).symm
        subst this
        exact strategyMetricsOf_duration_std_iff rs

/-- A successful experiment result for strategy `"A"`. -/
def rOk1 : ExperimentResult :=
  { experiment_id := "exp_1", strategy := "A", execution_id := "e3", duration := 3,
    success := true, error_message := none, content_type := "video",
    content_length := some 100, tokens_used := 10, api_cost := 1 / 10 }

/-- A second successful experiment result for strategy `"A"`. -/
def rOk2 : ExperimentResult :=
  { experiment_id := "exp_1", strategy := "A", execution_id := "e4", duration := 5,
    success := true, error_message := none, content_type := "video",
    content_length := some 200, tokens_used := 20, api_cost := 1 / 5 }

/-- A manager holding two successful results for strategy `"A"`. -/
def mgrC9w : ABTestManager :=
  { active_experiments := [], experiment_results := [("exp_1", [rOk1, rOk2])] }

/-- C9 witness: the hypotheses of `analyze_stdev_iff_successes` hold at the
concrete manager `mgrC9w` (two successful results for strategy `"A"`), and
there the metrics do include the standard deviation. -/
theorem analyze_stdev_iff_successes_witness :
    (mgrC9w.analyze_experiment "exp_1" = .ok [("A", strategyMetricsOf [rOk1, rOk2])] ∧
      dictGet "A" [("A", strategyMetricsOf [rOk1, rOk2])] =
        some (strategyMetricsOf [rOk1, rOk2])) ∧
    ((strategyMetricsOf [rOk1, rOk2]).duration_std.isSome ↔
      (strategyMetricsOf [rOk1, rOk2]).success_count > 1) := by
  have h1 : mgrC9w.analyze_experiment "exp_1" =
      .ok [("A", strategyMetricsOf [rOk1, rOk2])] := by
    simp [mgrC9w, ABTestManager.analyze_experiment, dictGet, groupByStrategy, appendResult,
      dictSet, rOk1, rOk2]
  have h2 : dictGet "A" [("A", strategyMetricsOf [rOk1, rOk2])] =
      some (strategyMetricsOf [rOk1, rOk2]) := by
    simp [dictGet]
  exact ⟨⟨h1, h2⟩, analyze_stdev_iff_successes mgrC9w "exp_1" "A" _ _ h1 h2⟩

/-! ## SmartRetryManager (`src/orchestrator/optimization.py`) -/

/-- One entry of the `retry_strategies` dict of `SmartRetryManager`. -/
structure RetryStrategyCfg : Type where
  max_retries : Nat
  base_delay : Rat
  backoff : Rat
deriving DecidableEq

/-- The `retry_strategies` dict built in `SmartRetryManager.__init__`. -/
def retry_strategies : List (String × RetryStrategyCfg) :=
  [("rate_limit", { max_retries := 5, base_delay := 60, backoff := 2 }),
   ("network", { max_retries := 3, base_delay := 5, backoff := 2 }),
   ("api_error", { max_retries := 2, base_delay := 10, backoff := 3 / 2 }),
   ("timeout", { max_retries := 2, base_delay := 10, backoff := 2 }),
   ("default", { max_retries := 2, base_delay := 5, backoff := 2 })]

/-- `SmartRetryManager.classify_error`: case-insensitive keyword match on the
error's message text (Python's `.lower()` is ASCII-equivalent on the keyword
set involved). -/
def classify_error (error : String) : String :=
  let error_str := error.toLower
  if strContains error_str "rate limit" || strContains error_str "429" then "rate_limit"
  else if strContains error_str "network" || strContains error_str "timeout" ||
    strContains error_str "connection" then "network"
  else if strContains error_str "api" || strContains error_str "401" ||
    strContains error_str "403" then "api_error"
  else "default"

/-- A raised exception as seen by `retry_with_backoff`: either an
`asyncio.TimeoutError` (caught by the dedicated branch) or a generic
`Exception` carrying its message text. -/
structure PyError : Type where
  is_timeout : Bool
  msg : String
deriving DecidableEq

/-- The strategy key the loop body derives for an error: the timeout branch
uses the fixed key `"timeout"`, the generic branch calls `classify_error`. -/
def errorCategory (e : PyError) : String :=
  if e.is_timeout then "timeout" else classify_error e.msg

/-- Strategy lookup: the timeout branch uses
`retry_strategies.get(error_type, retry_strategies["default"])`, the generic
branch indexes directly; both coincide because every key `classify_error` or
the timeout branch can produce is present in the dict. -/
def strategyFor (error_type : String) : RetryStrategyCfg :=
  (dictGet error_type retry_strategies).getD { max_retries := 2, base_delay := 5, backoff := 2 }

/-- The loop bound `max(s["max_retries"] for s in retry_strategies.values())`
of `retry_with_backoff`. -/
def maxAllRetries : Nat :=
  (retry_strategies.map (fun kv => kv.2.max_retries)).foldl max 0

/-- The retry loop of `retry_with_backoff`, by remaining iterations (`fuel`):
`for attempt in range(maxAllRetries + 1)` invokes the operation (modelled as
a function of the attempt index), returns on success, and on failure records
the error as `last_error` and breaks once `attempt ≥` the error category's
`max_retries`; when the loop finishes, the last error is re-raised unchanged
(`Except.error`; the `Option` models Python's `last_error = None` before the
first iteration). Backoff delays only feed `sleep` and do not affect the
returned value. The result is paired with the number of invocations made. -/
def retryFrom {A : Type} (op : Nat → Except PyError A) :
    Nat → Nat → Option PyError → Except (Option PyError) A × Nat
  | 0, _, last => (.error last, 0)
  | fuel + 1, attempt, _ =>
    match op attempt with
    | .ok v => (.ok v, 1)
    | .error e =>
      if attempt ≥ (strategyFor (errorCategory e)).max_retries then (.error (some e), 1)
      else
        ((retryFrom op fuel (attempt + 1) (some e)).1,
          (retryFrom op fuel (attempt + 1) (some e)).2 + 1)

/-- `SmartRetryManager.retry_with_backoff` (result and invocation count). -/
def retry_with_backoff {A : Type} (op : Nat → Except PyError A) :
    Except (Option PyError) A × Nat :=
  retryFrom op (maxAllRetries + 1) 0 none

/-- `classify_error` only ever returns one of the four generic category
keys. -/
theorem classify_error_mem (s : String) :
    classify_error s = "rate_limit" ∨ classify_error s = "network" ∨
    classify_error s = "api_error" ∨ classify_error s = "default" := by
  simp only [classify_error]
  split_ifs <;> simp

/-- The category key derived for an error is one of the five dict keys. -/
theorem errorCategory_mem (e : PyError) :
    errorCategory e = "timeout" ∨ errorCategory e = "rate_limit" ∨
    errorCategory e = "network" ∨ errorCategory e = "api_error" ∨
    errorCategory e = "default" := by
  unfold errorCategory
  by_cases ht : e.is_timeout
  · left; simp [ht]
  · simp only [ht, Bool.false_eq_true, if_false]
    right
    exact classify_error_mem e.msg

/-- Every category's retry bound is at most the loop bound. -/
theorem errorCategory_max_le (e : PyError) :
    (strategyFor (errorCategory e)).max_retries ≤ maxAllRetries := by
  rcases errorCategory_mem e with h | h | h | h | h <;> rw [h] <;> decide

/-- When every attempt fails within one category, the loop runs to that
category's bound and returns the last error with
`max_retries + 1 − attempt` further invocations. -/
theorem retryFrom_exhausts {A : Type} (op : Nat → Except PyError A) (c : String)
    (hfail : ∀ n, ∃ e, op n = .error e ∧ errorCategory e = c) :
    ∀ (fuel attempt : Nat) (last : Option PyError),
      attempt ≤ (strategyFor c).max_retries →
      (strategyFor c).max_retries < attempt + fuel →
      ∃ e, op (strategyFor c).max_retries = .error e ∧
        retryFrom op fuel attempt last =
          (.error (some e), (strategyFor c).max_retries + 1 - attempt) := by
  intro fuel
  induction fuel with
  | zero => intro attempt last h1 h2; omega
  | succ fuel ih =>
    intro attempt last h1 h2
    obtain ⟨ea, hea, hcat⟩ := hfail attempt
    by_cases heq : attempt = (strategyFor c).max_retries
    · refine ⟨ea, heq ▸ hea, ?_⟩
      simp only [retryFrom]
      simp only [hea, hcat]
      rw [if_pos (by omega)]
      have hc : (strategyFor c).max_retries + 1 - attempt = 1 := by omega
      rw [hc]
    · have hlt : attempt < (strategyFor c).max_retries := lt_of_le_of_ne h1 heq
      obtain ⟨e, hop, hrec⟩ := ih (attempt + 1) (some ea) (by omega) (by omega)
      refine ⟨e, hop, ?_⟩
      simp only [retryFrom]
      simp only [hea, hcat]
      rw [if_neg (by omega)]
      rw [hrec]
      simp only [Prod.mk.injEq]
      exact ⟨trivial, by omega⟩

/-- C6: for every operation that fails on every attempt with errors all
classified into a single category `c`, `retry_with_backoff` invokes the
operation exactly `max_retries(c) + 1` times — so retry attempts for the
category never exceed its `max_retries` — and then re-raises the error of the
final attempt unchanged, so the caller receives exactly the final concrete
exception as the terminal failure. -/
theorem retry_with_backoff_exhaustion {A : Type} (op : Nat → Except PyError A) (c : String)
    (hfail : ∀ n, ∃ e, op n = .error e ∧ errorCategory e = c) :
    ∃ e, op (strategyFor c).max_retries = .error e ∧
      retry_with_backoff op = (.error (some e), (strategyFor c).max_retries + 1) := by
  obtain ⟨e0, _, hcat0⟩ := hfail 0
  have hmle : (strategyFor c).max_retries ≤ maxAllRetries := hcat0 ▸ errorCategory_max_le e0
  have h := retryFrom_exhausts op c hfail (maxAllRetries + 1) 0 none (by omega) (by omega)
  simpa [retry_with_backoff] using h

/-- The always-failing operation of the C6 witness: every attempt raises an
`asyncio.TimeoutError`. -/
def opC6 (attempt : Nat) : Except PyError Unit :=
  .error { is_timeout := true, msg := "operation " ++ toString attempt ++ " timed out" }

/-- C6 witness: the hypothesis of `retry_with_backoff_exhaustion` holds for
the concrete always-timing-out operation `opC6` with category `"timeout"`,
and so does its conclusion there. -/
theorem retry_with_backoff_exhaustion_witness :
    (∀ n, ∃ e, opC6 n = .error e ∧ errorCategory e = "timeout") ∧
    (∃ e, opC6 (strategyFor "timeout").max_retries = .error e ∧
      retry_with_backoff opC6 = (.error (some e), (strategyFor "timeout").max_retries + 1)) :=
  ⟨fun n => ⟨_, rfl, rfl⟩,
    retry_with_backoff_exhaustion opC6 "timeout" (fun n => ⟨_, rfl, rfl⟩)⟩

/-! ## ParallelProcessor (`src/orchestrator/optimization.py`) and
`ContentState` (`src/orchestrator/state.py`) -/

/-- The fields of the `ContentState` TypedDict read or written on the
parallel-execution path (content identity, the two mergeable result fields,
and the bookkeeping written by `update_state_status`). -/
structure ContentState : Type where
  content_url : String := ""
  content_type : String := ""
  summary : Option String := none
  embeddings : Option (List Rat) := none
  status : String := "pending"
  current_node : Option String := none
  error_message : Option String := none
  retry_count : Nat := 0
  created_at : String := ""
  updated_at : String := ""
  completed_at : Option String := none
deriving DecidableEq

/-- `update_state_status` (`state.py`), with `datetime.now()` passed as
`now`: sets status and `updated_at`, optionally `current_node` and
`error_message`, and stamps `completed_at` when the new status is
`"completed"`. -/
def update_state_status (state : ContentState) (status : String) (now : String)
    (current_node : Option String) (error_message : Option String) : ContentState :=
  let s1 := { state with status := status, updated_at := now }
  let s2 := match current_node with
    | some n => { s1 with current_node := some n }
    | none => s1
  let s3 := match error_message with
    | some m => { s2 with error_message := some m }
    | none => s2
  if status = "completed" then { s3 with completed_at := some now } else s3

/-- `ParallelProcessor.execute_parallel_nodes`, with `datetime.now()` passed
as `now`. Every task is submitted to the pool and every future is awaited
(`as_completed` over all of them — full fan-in), so each task's outcome is
the application of its function to the shared input snapshot, modelled as an
`Except`; a raised exception contributes `str(e)` to `errors`. The merge is
keyed by task name (`"summarizer"` → `summary` when present, `"embedding"` →
`embeddings` when present; other names are ignored), so the list order
standing in for completion order does not affect the merged fields; with at
most one failure the error text is also order-independent. -/
def execute_parallel_nodes (state : ContentState)
    (node_functions : List (String × (ContentState → Except String ContentState)))
    (now : String) : ContentState :=
  let outcomes := node_functions.map (fun nf => (nf.1, nf.2 state))
  let results := outcomes.filterMap (fun nr =>
    match nr.2 with | .ok s => some (nr.1, s) | .error _ => none)
  let errors := outcomes.filterMap (fun nr =>
    match nr.2 with | .error e => some (nr.1, e) | .ok _ => none)
  let updated_state := results.foldl (fun st r =>
    if r.1 = "summarizer" ∧ r.2.summary.isSome then { st with summary := r.2.summary }
    else if r.1 = "embedding" ∧ r.2.embeddings.isSome then
      { st with embeddings := r.2.embeddings }
    else st) state
  let updated_state2 :=
    if errors ≠ [] then
      update_state_status updated_state "partial_failure" now none
        (some ("Parallel processing errors: " ++
          String.intercalate "; " (errors.map (fun nm => nm.1 ++ ": " ++ nm.2))))
    else { updated_state with status := "processed" }
  { updated_state2 with updated_at := now }

theorem intercalate_singleton (sep x : String) : String.intercalate sep [x] = x := rfl

theorem strContains_right (s pat : String) : strContains (s ++ pat) pat = true := by
  simp only [strContains, decide_eq_true_eq, String.data_append]
  exact (List.suffix_append s.data pat.data).isInfix

theorem strContains_left (pat s : String) : strContains (pat ++ s) pat = true := by
  simp only [strContains, decide_eq_true_eq, String.data_append]
  exact (List.prefix_append pat.data s.data).isInfix

theorem strContains_grow_left (s t pat : String) (h : strContains t pat = true) :
    strContains (s ++ t) pat = true := by
  simp only [strContains, decide_eq_true_eq, String.data_append] at h ⊢
  obtain ⟨u, v, huv⟩ := h
  exact ⟨s.data ++ u, v, by rw [← huv]; simp⟩

/-- C8: for a call to `execute_parallel_nodes` with the two tasks
`"summarizer"` and `"embedding"` of which exactly one raises, both tasks are
still evaluated and the surviving task's mapped field (`summary` for
`"summarizer"`, `embeddings` for `"embedding"`) is merged into the output
state, the output status is `"partial_failure"`, and the error message
contains both the failing task's name and its error message; when no task
fails the output status is `"processed"`. -/
theorem parallel_partial_failure_merge
    (state sf sg : ContentState) (f g : ContentState → Except String ContentState)
    (now : String) :
    (∀ m : String, f state = .error m → g state = .ok sg → sg.embeddings.isSome →
      (execute_parallel_nodes state [("summarizer", f), ("embedding", g)] now).embeddings =
        sg.embeddings ∧
      (execute_parallel_nodes state [("summarizer", f), ("embedding", g)] now).status =
        "partial_failure" ∧
      ∃ em : String,
        (execute_parallel_nodes state [("summarizer", f), ("embedding", g)] now).error_message =
          some em ∧
        strContains em "summarizer" = true ∧ strContains em m = true) ∧
    (∀ m : String, g state = .error m → f state = .ok sf → sf.summary.isSome →
      (execute_parallel_nodes state [("summarizer", f), ("embedding", g)] now).summary =
        sf.summary ∧
      (execute_parallel_nodes state [("summarizer", f), ("embedding", g)] now).status =
        "partial_failure" ∧
      ∃ em : String,
        (execute_parallel_nodes state [("summarizer", f), ("embedding", g)] now).error_message =
          some em ∧
        strContains em "embedding" = true ∧ strContains em m = true) ∧
    (f state = .ok sf → g state = .ok sg →
      (execute_parallel_nodes state [("summarizer", f), ("embedding", g)] now).status =
        "processed") := by
  refine ⟨?_, ?_, ?_⟩
  · intro m hf hg hsg
    refine ⟨?_, ?_, ?_⟩
    · simp [execute_parallel_nodes, update_state_status, hf, hg, hsg]
    · simp [execute_parallel_nodes, update_state_status, hf, hg, hsg]
    · refine ⟨"Parallel processing errors: " ++ ("summarizer" ++ ": " ++ m), ?_, ?_, ?_⟩
      · simp [execute_parallel_nodes, update_state_status, hf, hg, hsg,
          intercalate_singleton]
      · apply strContains_grow_left
        rw [String.append_assoc]
        exact strContains_left "summarizer" (": " ++ m)
      · apply strContains_grow_left
        exact strContains_right ("summarizer" ++ ": ") m
  · intro m hg hf hsf
    refine ⟨?_, ?_, ?_⟩
    · simp [execute_parallel_nodes, update_state_status, hf, hg, hsf]
    · simp [execute_parallel_nodes, update_state_status, hf, hg, hsf]
    · refine ⟨"Parallel processing errors: " ++ ("embedding" ++ ": " ++ m), ?_, ?_, ?_⟩
      · simp [execute_parallel_nodes, update_state_status, hf, hg, hsf,
          intercalate_singleton]
      · apply strContains_grow_left
        rw [String.append_assoc]
        exact strContains_left "embedding" (": " ++ m)
      · apply strContains_grow_left
        exact strContains_right ("embedding" ++ ": ") m
  · intro hf hg
    simp [execute_parallel_nodes, update_state_status, hf, hg]

/-- The shared input state of the C8 witness. -/
def stateC8 : ContentState := { content_url := "https://x/v1", content_type := "video" }

/-- The surviving embedding task's output in the C8 witness. -/
def sgC8 : ContentState := { stateC8 with embeddings := some [1, 2] }

/-- The always-failing summarizer task of the C8 witness. -/
def fC8 : ContentState → Except String ContentState := fun _ => .error "boom"

/-- The succeeding embedding task of the C8 witness. -/
def gC8 : ContentState → Except String ContentState := fun st =>
  .ok { st with embeddings := some [1, 2] }

/-- C8 witness: the hypotheses of the first component of
`parallel_partial_failure_merge` hold at the concrete input (summarizer
raises `"boom"`, embedding succeeds), and so does its conclusion there. -/
theorem parallel_partial_failure_merge_witness :
    (fC8 stateC8 = .error "boom" ∧ gC8 stateC8 = .ok sgC8 ∧ sgC8.embeddings.isSome) ∧
    ((execute_parallel_nodes stateC8 [("summarizer", fC8), ("embedding", gC8)] "t1").embeddings =
        sgC8.embeddings ∧
      (execute_parallel_nodes stateC8 [("summarizer", fC8), ("embedding", gC8)] "t1").status =
        "partial_failure" ∧
      ∃ em : String,
        (execute_parallel_nodes stateC8
            [("summarizer", fC8), ("embedding", gC8)] "t1").error_message = some em ∧
        strContains em "summarizer" = true ∧ strContains em "boom" = true) :=
  ⟨⟨rfl, rfl, rfl⟩,
    (parallel_partial_failure_merge stateC8 stateC8 sgC8 fC8 gC8 "t1").1 "boom" rfl rfl rfl⟩

/-! ## AdaptiveModelSelector (`src/orchestrator/optimization.py`) -/

/-- One inner value of the `model_configs` dict (`max_tokens` and
`temperature` are absent from the embedding tiers). -/
structure ModelConfig : Type where
  model : String
  max_tokens : Option Nat := none
  temperature : Option Rat := none
deriving DecidableEq

/-- The `model_configs` dict built in `AdaptiveModelSelector.__init__`. -/
def initial_model_configs : List (String × List (String × ModelConfig)) :=
  [("summarizer",
    [("fast", ⟨"deepseek-chat", some 1000, some (3 / 10)⟩),
     ("balanced", ⟨"deepseek-chat", some 2000, some (3 / 10)⟩),
     ("quality", ⟨"deepseek-reasoner", some 3000, some (1 / 5)⟩)]),
   ("embedding",
    [("fast", { model := "text-embedding-3-small" }),
     ("balanced", { model := "text-embedding-ada-002" }),
     ("quality", { model := "text-embedding-3-large" })])]

/-- `AdaptiveModelSelector` state. The `performance_history` dict is omitted:
`record_performance` only writes it and neither `select_model` nor
`update_from_metrics` reads it. -/
structure AdaptiveModelSelector : Type where
  model_configs : List (String × List (String × ModelConfig))
deriving DecidableEq

/-- A freshly constructed `AdaptiveModelSelector`. -/
def mkAdaptiveModelSelector : AdaptiveModelSelector :=
  { model_configs := initial_model_configs }

/-- `AdaptiveModelSelector.select_model`: key-based lookups with the `.get`
fallbacks of the source (`none` models the `{}` default); `priority` is
accepted and unused exactly as in the source. -/
def AdaptiveModelSelector.select_model (s : AdaptiveModelSelector) (node_type : String)
    (content_length : Nat) (priority : String) : Option ModelConfig :=
  let configs := (dictGet node_type s.model_configs).getD []
  if content_length < 1000 then
    match dictGet "fast" configs with
    | some c => some c
    | none => dictGet "balanced" configs
  else if content_length < 5000 then dictGet "balanced" configs
  else
    match dictGet "quality" configs with
    | some c => some c
    | none => dictGet "balanced" configs

/-- One entry of the `node_metrics` argument of `update_from_metrics`; the
zero defaults model `stats.get("p95_duration", 0)` / `stats.get("error_rate",
0)`. -/
structure TuningStats : Type where
  p95_duration : Rat := 0
  error_rate : Rat := 0
deriving DecidableEq

/-- The preferred-tier decision of `update_from_metrics`. -/
def preferredTier (stats : TuningStats) : String :=
  if stats.p95_duration > 10 then "fast"
  else if stats.p95_duration < 3 ∧ stats.error_rate < 1 / 100 then "quality"
  else "balanced"

/-- The dict reordering
`{preferred: config[preferred], **{k: v for k, v in config.items() if k != preferred}}`
(the `none` case is unreachable at the call site, which checks membership
first). -/
def reorderPreferred (config : List (String × ModelConfig)) (preferred : String) :
    List (String × ModelConfig) :=
  match dictGet preferred config with
  | none => config
  | some v => (preferred, v) :: config.filter (fun kv => kv.1 ≠ preferred)

/-- The body of the `update_from_metrics` loop for one `node_type` entry:
when both the node type and the preferred tier exist, replace the node's
config dict by its reordered version. -/
def updateOneMetric (s : AdaptiveModelSelector) (nm : String × TuningStats) :
    AdaptiveModelSelector :=
  match dictGet nm.1 s.model_configs with
  | none => s
  | some config =>
    if (dictGet (preferredTier nm.2) config).isSome then
      { s with model_configs :=
          dictSet nm.1 (reorderPreferred config (preferredTier nm.2)) s.model_configs }
    else s

/-- `AdaptiveModelSelector.update_from_metrics`: iterate the loop body over
the `node_metrics` items. -/
def AdaptiveModelSelector.update_from_metrics (s : AdaptiveModelSelector)
    (node_metrics : List (String × TuningStats)) : AdaptiveModelSelector :=
  node_metrics.foldl updateOneMetric s

theorem dictGet_dictSet_ne {α β : Type} [DecidableEq α] (k k' : α) (v : β) (h : k ≠ k') :
    ∀ l : List (α × β), dictGet k (dictSet k' v l) = dictGet k l := by
  intro l
  induction l with
  | nil => simp [dictGet, dictSet, Ne.symm h]
  | cons ab rest ih =>
    obtain ⟨a, b⟩ := ab
    by_cases ha : a = k' <;> simp [dictGet, dictSet, ha, ih, Ne.symm h]

theorem dictGet_filter_ne {α β : Type} [DecidableEq α] (k p : α) (h : k ≠ p) :
    ∀ l : List (α × β), dictGet k (l.filter (fun kv => kv.1 ≠ p)) = dictGet k l := by
  intro l
  induction l with
  | nil => rfl
  | cons ab rest ih =>
    obtain ⟨a, b⟩ := ab
    simp only [decide_not] at ih
    by_cases hap : a = p
    · subst hap
      simp [dictGet, Ne.symm h, ih]
    · by_cases hak : a = k
      · subst hak
        simp [dictGet, hap]
      · simp [dictGet, hap, hak, ih]

theorem dictGet_reorderPreferred (config : List (String × ModelConfig)) (p k : String) :
    dictGet k (reorderPreferred config p) = dictGet k config := by
  unfold reorderPreferred
  cases hc : dictGet p config with
  | none => rfl
  | some v =>
    by_cases hk : k = p
    · subst hk
      simp [dictGet, hc]
    · simp only [dictGet, Ne.symm hk, if_neg, not_false_eq_true]
      simpa using dictGet_filter_ne k p hk config

/-- One tuning step never changes any key-based lookup into the (per-node)
config dicts. -/
theorem dictGet_updateOneMetric (s : AdaptiveModelSelector) (x : String × TuningStats)
    (nt key : String) :
    dictGet key ((dictGet nt (updateOneMetric s x).model_configs).getD []) =
    dictGet key ((dictGet nt s.model_configs).getD []) := by
  cases hc : dictGet x.1 s.model_configs with
  | none => simp only [updateOneMetric, hc]
  | some config =>
    by_cases hp : (dictGet (preferredTier x.2) config).isSome
    · simp only [updateOneMetric, hc, hp, if_pos]
      by_cases hnt : nt = x.1
      · subst hnt
        rw [dictGet_dictSet_self, hc]
        simp only [Option.getD_some]
        exact dictGet_reorderPreferred config (preferredTier x.2) key
      · rw [dictGet_dictSet_ne nt x.1 _ hnt]
    · simp only [updateOneMetric, hc, hp, if_neg, Bool.false_eq_true, not_false_eq_true]

/-- A whole `update_from_metrics` call never changes any key-based lookup
into the per-node config dicts. -/
theorem dictGet_update_from_metrics (node_metrics : List (String × TuningStats)) :
    ∀ (s : AdaptiveModelSelector) (nt key : String),
      dictGet key ((dictGet nt (s.update_from_metrics node_metrics).model_configs).getD []) =
      dictGet key ((dictGet nt s.model_configs).getD []) := by
  induction node_metrics with
  | nil => intro s nt key; rfl
  | cons x rest ih =>
    intro s nt key
    have hfold : s.update_from_metrics (x :: rest) =
        (updateOneMetric s x).update_from_metrics rest := rfl
    rw [hfold, ih]
    exact dictGet_updateOneMetric s x nt key

/-- `select_model` depends on the selector only through key-based lookups
into the per-node config dicts. -/
theorem select_model_eq_of_lookups (s1 s2 : AdaptiveModelSelector)
    (h : ∀ nt key : String,
      dictGet key ((dictGet nt s1.model_configs).getD []) =
      dictGet key ((dictGet nt s2.model_configs).getD []))
    (node_type : String) (content_length : Nat) (priority : String) :
    s1.select_model node_type content_length priority =
    s2.select_model node_type content_length priority := by
  simp only [AdaptiveModelSelector.select_model]
  rw [h node_type "fast", h node_type "balanced", h node_type "quality"]

/-- C10: for every node type, content length and priority, and after every
sequence of `update_from_metrics` calls, `select_model` returns exactly the
configuration it returns with no tuning at all — tier promotion only reorders
the per-node dicts while `select_model` looks tiers up by key, so the result
depends only on the content-length thresholds and the fixed per-tier
parameters. -/
theorem select_model_tuning_invariant
    (updates : List (List (String × TuningStats))) (node_type : String)
    (content_length : Nat) (priority : String) :
    (updates.foldl AdaptiveModelSelector.update_from_metrics
        mkAdaptiveModelSelector).select_model node_type content_length priority =
    mkAdaptiveModelSelector.select_model node_type content_length priority := by
  have hlk : ∀ (updates : List (List (String × TuningStats)))
      (s : AdaptiveModelSelector) (nt key : String),
      dictGet key
        ((dictGet nt (updates.foldl AdaptiveModelSelector.update_from_metrics
          s).model_configs).getD []) =
      dictGet key ((dictGet nt s.model_configs).getD []) := by
    intro updates
    induction updates with
    | nil => intro s nt key; rfl
    | cons u rest ih =>
      intro s nt key
      have hfold : (u :: rest).foldl AdaptiveModelSelector.update_from_metrics s =
          rest.foldl AdaptiveModelSelector.update_from_metrics
            (s.update_from_metrics u) := rfl
      rw [hfold, ih]
      exact dictGet_update_from_metrics u s nt key
  exact select_model_eq_of_lookups _ _ (hlk updates mkAdaptiveModelSelector)
    node_type content_length priority

end InsightHub
